import Mathlib

/-!
Shallow embedding of the sirbot-slack message dispatch and
conversation-continuation engine (src/sirbot/slack/dispatcher/message.py and
src/sirbot/slack/store/user.py), together with theorems settling the frozen
claims about it.

Machine conventions: wall-clock time is a natural number of seconds; handler
callback references are abstracted as natural-number identifiers; compiled
regular expressions are abstracted as search functions `String -> Option Nat`
(the option carries an abstract match object); Python dictionaries are
association lists with first-key-wins lookup.
-/

namespace SirbotSlack

/-- A slack entity reference (channel, group or user): the dispatcher only
ever reads its `id` attribute. -/
structure SlackEntity where
  id : String
deriving DecidableEq, Repr

/-- `User` from src/sirbot/slack/store/user.py: an id plus the raw record
(a mapping; the dispatcher only reads the boolean field `is_admin`). -/
structure User where
  id : String
  raw : List (String × Bool)
deriving DecidableEq, Repr

/-- `User.admin` property: `self._raw.get('is_admin', False)`. -/
def User.admin (u : User) : Bool :=
  (u.raw.lookup "is_admin").getD false

/-- A normalized `SlackMessage` as read by the dispatcher: `frm` may be
absent (system messages), `to` is the destination entity, plus text, subtype,
mention flag, optional thread id, timestamp and nullable conversation id. -/
structure Message where
  frm : Option User
  «to» : SlackEntity
  text : String
  subtype : String
  mention : Bool
  thread : Option String
  timestamp : String
  conversation_id : Option String
deriving DecidableEq, Repr

/-- Python `a or b` on a nullable string: `None` and the empty string are
falsy. -/
def pyOrStr (a : Option String) (b : String) : String :=
  match a with
  | none => b
  | some s => if s = "" then b else s

/-- One stored direct continuation entry, the dict
`{'func': .., 'time': .., 'timeout': .., 'id': ..}` built in
`handler_done_callback`. -/
structure CEntry where
  func : Nat
  time : Nat
  timeout : Nat
  id : String
deriving DecidableEq, Repr

/-- Association-list read, modelling Python dict key lookup. -/
def aget {α : Type} (l : List (String × α)) (k : String) : Option α :=
  match l with
  | [] => none
  | (k', v) :: rest => if k' = k then some v else aget rest k

/-- Association-list write, modelling Python dict assignment: an existing key
is updated in place, a new key is appended (dict insertion order). -/
def aset {α : Type} (l : List (String × α)) (k : String) (v : α) :
    List (String × α) :=
  match l with
  | [] => [(k, v)]
  | (k', v') :: rest =>
    if k' = k then (k', v) :: rest else (k', v') :: aset rest k v

/-- Association-list delete, modelling Python `del d[k]`. -/
def aerase {α : Type} (l : List (String × α)) (k : String) :
    List (String × α) :=
  l.filter (fun kv => kv.1 != k)

/-- `self._callbacks`: sender id -> destination id -> continuation entry. -/
abbrev Callbacks := List (String × List (String × CEntry))

/-- The two-level membership test
`frm.id in self._callbacks and to.id in self._callbacks[frm.id]`
returning the entry when both keys are present. -/
def lookupDirect (cbs : Callbacks) (frmId toId : String) : Option CEntry :=
  match aget cbs frmId with
  | none => none
  | some inner => aget inner toId

/-- `del self._callbacks[msg.frm.id][msg.«to».id]`: removes the inner key only,
the (possibly now empty) outer mapping stays. -/
def eraseDirect (cbs : Callbacks) (frmId toId : String) : Callbacks :=
  match aget cbs frmId with
  | none => cbs
  | some inner => aset cbs frmId (aerase inner toId)

/-- `handler_done_callback` registration:
`if frm.id not in self._callbacks: self._callbacks[frm.id] = dict()` then
`self._callbacks[frm.id][to.id] = entry`. -/
def setDirect (cbs : Callbacks) (frmId toId : String) (e : CEntry) :
    Callbacks :=
  match aget cbs frmId with
  | none => cbs ++ [(frmId, [(toId, e)])]
  | some inner => aset cbs frmId (aset inner toId e)

/-- Second argument of a handler invocation: either the literal string
`'callback'` used on the continuation path, or a regex match object from the
pattern path. -/
inductive MatchArg where
  | callback
  | matched (n : Nat)
deriving DecidableEq, Repr

/-- One registered handler record (the dict appended to `self._endpoints`):
`_dispatch` reads `func`, `mention` and `admin`; the mapping may also carry a
channel-scope value, which no code in `_dispatch` ever reads. -/
structure Command where
  func : Nat
  mention : Bool
  admin : Bool
  channels : Option (List String)
deriving DecidableEq, Repr

/-- A compiled pattern key of `self._endpoints`: the source string and flags
it was compiled from (`re.compile` caches, so equal string and flags give the
same dict key) and the compiled search function. -/
structure PatternKey where
  src : String
  flags : Nat
  search : String → Option Nat

/-- `self._endpoints`: compiled pattern -> list of handler records. -/
abbrev Endpoints := List (PatternKey × List Command)

/-- The per-command filter of the pattern loop:
`if command.get('mention') and not msg.mention: continue`
`elif command.get('admin') and not msg.frm.admin: continue`. -/
def keep (u : User) (msg : Message) (c : Command) : Bool :=
  if c.mention && !msg.mention then false
  else if c.admin && !u.admin then false
  else true

/-- The pattern-matching loop of `_dispatch`: for each endpoint entry, search
the message text; on a match keep the commands passing the mention and admin
filters, pairing each with the match object. -/
def selectCmds (eps : Endpoints) (u : User) (msg : Message) :
    List (Command × Nat) :=
  match eps with
  | [] => []
  | (pk, cmds) :: rest =>
    (match pk.search msg.text with
     | some n => (cmds.filter (keep u msg)).map (fun c => (c, n))
     | none => []) ++ selectCmds rest u msg

/-- The `(command['func'], n)` pairs appended to `handlers` on the
pattern-matching path. -/
def patternHandlers (eps : Endpoints) (u : User) (msg : Message) :
    List (Nat × MatchArg) :=
  (selectCmds eps u msg).map (fun cn => (cn.1.func, MatchArg.matched cn.2))

/-- Result of one `_dispatch` call: the continuation map afterwards, the
message (whose `conversation_id` the callback path assigns) and the list of
`(func, arg)` invocations handed to `ensure_handler`. -/
structure DispatchOut where
  callbacks : Callbacks
  msg : Message
  invoked : List (Nat × MatchArg)
deriving DecidableEq, Repr

/-- `MessageDispatcher._dispatch`: if a direct continuation keyed by
`(msg.frm.id, msg.«to».id)` exists and `time.time() < time + timeout`, set the
conversation id, invoke exactly the stored callback with the literal
`'callback'` argument and delete the entry; otherwise run the pattern loop.
The sender is passed explicitly since `incoming` guards `msg.frm`. -/
def dispatchCore (cbs : Callbacks) (eps : Endpoints) (u : User)
    (msg : Message) (now : Nat) : DispatchOut :=
  match lookupDirect cbs u.id msg.«to».id with
  | some e =>
    if now < e.time + e.timeout then
      { callbacks := eraseDirect cbs u.id msg.«to».id
        msg := { msg with conversation_id := some e.id }
        invoked := [(e.func, MatchArg.callback)] }
    else
      { callbacks := cbs, msg := msg, invoked := patternHandlers eps u msg }
  | none => { callbacks := cbs, msg := msg, invoked := patternHandlers eps u msg }

/-- `self._save`: either a list of subtypes to persist or a boolean. -/
inductive SavePolicy where
  | list (l : List String)
  | flag (b : Bool)
deriving DecidableEq, Repr

/-- The save guard of `incoming`:
`isinstance(self._save, list) and message.subtype in self._save or
self._save is True`. -/
def shouldSave (p : SavePolicy) (subtype : String) : Bool :=
  match p with
  | .list l => l.contains subtype
  | .flag b => b

/-- The `ignoring` list of suppressed subtypes in `incoming`. -/
def ignoring : List String :=
  ["message_changed", "message_deleted", "channel_join", "channel_leave",
   "message_replied"]

/-- The identity configuration `incoming` filters against: `self.bot.id` and
`self.bot.bot_id`, plus the save policy. -/
structure IncomingCfg where
  botId : String
  botBotId : String
  save : SavePolicy
deriving Repr

/-- Result of one `incoming` call: the continuation map, the set of persisted
message timestamps, and the handler invocations performed. -/
structure IncomingOut where
  callbacks : Callbacks
  db : List String
  invoked : List (Nat × MatchArg)
deriving DecidableEq, Repr

/-- `MessageDispatcher.incoming`. Drop when there is no sender; drop when the
sender is the bot, its bot surrogate, or the literal `'B00000000'`; then, when
the save policy covers the subtype, persist and return on a duplicate-key
`IntegrityError`; then drop suppressed subtypes; finally dispatch.

Modelled from the spec: the external persistence layer
(`database.<type>.dispatcher.save_incoming_message`, not under src) raises a
duplicate-key `IntegrityError` exactly when the message timestamp key is
already stored, and on success the timestamp is recorded and committed. -/
def incoming (cfg : IncomingCfg) (eps : Endpoints) (cbs : Callbacks)
    (db : List String) (now : Nat) (msg : Message) : IncomingOut :=
  match msg.frm with
  | none => { callbacks := cbs, db := db, invoked := [] }
  | some u =>
    if u.id = cfg.botId || u.id = cfg.botBotId || u.id = "B00000000" then
      { callbacks := cbs, db := db, invoked := [] }
    else if shouldSave cfg.save msg.subtype && db.contains msg.timestamp then
      { callbacks := cbs, db := db, invoked := [] }
    else
      let db' := if shouldSave cfg.save msg.subtype
        then db ++ [msg.timestamp] else db
      if ignoring.contains msg.subtype then
        { callbacks := cbs, db := db', invoked := [] }
      else
        let d := dispatchCore cbs eps u msg now
        { callbacks := d.callbacks, db := db', invoked := d.invoked }

/-- A completed handler result, the mapping `handler_done_callback` inspects:
an optional callback reference under `'func'`, optional `'to'` and `'frm'`
entities and an optional `'timeout'`. -/
structure HResult where
  func : Option Nat
  «to» : Option SlackEntity
  frm : Option SlackEntity
  timeout : Option Nat
deriving DecidableEq, Repr

/-- `MessageDispatcher.handler_done_callback` on a normally returned result
(`None` models a falsy or absent return): when the result carries `'func'`,
register a direct continuation with `to = result.get('to', msg.to)`,
`frm = result.get('frm', msg.frm)`, `timeout = result.get('timeout', 300)` and
conversation id `msg.conversation_id or msg.timestamp`; otherwise do
nothing. The original sender is passed explicitly as in `dispatchCore`. -/
def handler_done_callback (cbs : Callbacks) (now : Nat) (u : User)
    (msg : Message) (result : Option HResult) : Callbacks :=
  match result with
  | none => cbs
  | some r =>
    match r.func with
    | none => cbs
    | some f =>
      let toE : SlackEntity := r.«to».getD msg.«to»
      let frmE : SlackEntity := r.frm.getD ⟨u.id⟩
      setDirect cbs frmE.id toE.id
        { func := f, time := now, timeout := r.timeout.getD 300,
          id := pyOrStr msg.conversation_id msg.timestamp }

/-- A raw handler descriptor supplied by the plugin hook
`register_slack_messages`: the pattern source string under `'match'`,
optional `'flags'`, the callback under `'func'` and the flags and
channel-scope value carried into the registered record. -/
structure Descriptor where
  mtch : String
  flags : Option Nat
  func : Nat
  mention : Bool
  admin : Bool
  channels : Option (List String)
deriving DecidableEq, Repr

/-- The registered record built from a descriptor. -/
def Descriptor.toCommand (d : Descriptor) : Command :=
  { func := d.func, mention := d.mention, admin := d.admin,
    channels := d.channels }

/-- `msg['match'].format(bot_name='<@\x7b\x7d>'.format(self.bot.id))`,
applied when the dispatcher holds a bot identity. -/
def formatBot (bot : Option String) (s : String) : String :=
  match bot with
  | none => s
  | some bid => s.replace "\x7bbot_name\x7d" ("<@" ++ bid ++ ">")

/-- `self._endpoints[re.compile(..)].append(msg)`: `re.compile` caches, so a
pattern with the same source and flags lands under the existing key, and a
fresh pattern is appended as a new key. -/
def endpointsAdd (eps : Endpoints) (pk : PatternKey) (c : Command) :
    Endpoints :=
  match eps with
  | [] => [(pk, [c])]
  | (pk', cmds) :: rest =>
    if pk'.src = pk.src && pk'.flags = pk.flags then
      (pk', cmds ++ [c]) :: rest
    else
      (pk', cmds) :: endpointsAdd rest pk c

/-- The registration loop of `MessageDispatcher._register` over the
flattened hook results: each pattern is bot-name formatted and compiled with
its flags; there is no exception handling around the compilation, so a
pattern that fails to compile propagates `re.error`, aborting the loop and
leaving only the earlier descriptors registered. The boolean records whether
the loop raised. -/
def registerLoop (compile : String → Nat → Option (String → Option Nat))
    (bot : Option String) : List Descriptor → Endpoints → Endpoints × Bool
  | [], acc => (acc, false)
  | d :: rest, acc =>
    match compile (formatBot bot d.mtch) (d.flags.getD 0) with
    | none => (acc, true)
    | some srch =>
      registerLoop compile bot rest
        (endpointsAdd acc ⟨formatBot bot d.mtch, d.flags.getD 0, srch⟩
          d.toCommand)

/-- The callback references registered in an endpoints table. -/
def registeredFuncs (eps : Endpoints) : List Nat :=
  (eps.map (fun pc => pc.2.map (fun c => c.func))).flatten

/-- Modelled from the spec: the thread-continuation store and its
`lookupThread(threadId, fromId)` (checks the sender-specific key first, then
the "all" sentinel). No such store or lookup exists anywhere under src; this
definition follows the spec wording so that the code routing can be compared
against it. -/
def lookupThreadSpec (tm : List (String × List (String × Nat)))
    (tid frmId : String) : Option Nat :=
  match aget tm tid with
  | none => none
  | some sub =>
    match aget sub frmId with
    | some f => some f
    | none => aget sub "all"

/-! ## Helper lemmas about the association-list operations and the dispatch
paths, shared by the claim theorems. -/

theorem aget_aset_self {α : Type} (l : List (String × α)) (k : String)
    (v : α) : aget (aset l k v) k = some v := by
  induction l with
  | nil => simp [aset, aget]
  | cons hd t ih =>
    by_cases hk : hd.1 = k
    · simp [aset, hk, aget]
    · simp [aset, hk, aget, ih]

theorem aget_aerase_self {α : Type} (l : List (String × α)) (k : String) :
    aget (aerase l k) k = none := by
  induction l with
  | nil => rfl
  | cons hd t ih =>
    rw [aerase] at ih ⊢
    rw [List.filter_cons]
    by_cases hk : hd.1 = k
    · simpa [hk] using ih
    · simpa [hk, aget] using ih

theorem aget_append_of_none {α : Type} (l m : List (String × α)) (k : String)
    (h : aget l k = none) : aget (l ++ m) k = aget m k := by
  induction l with
  | nil => rfl
  | cons hd t ih =>
    rw [aget] at h
    by_cases hk : hd.1 = k
    · simp [hk] at h
    · rw [List.cons_append, aget]
      rw [if_neg hk] at h ⊢
      exact ih h

theorem lookupDirect_setDirect_self (cbs : Callbacks) (a b : String)
    (e : CEntry) : lookupDirect (setDirect cbs a b e) a b = some e := by
  rw [setDirect]
  cases h : aget cbs a with
  | none =>
    rw [lookupDirect, aget_append_of_none cbs _ a h]
    simp [aget]
  | some inner =>
    simp only [lookupDirect, aget_aset_self]

theorem lookupDirect_eraseDirect_self (cbs : Callbacks) (a b : String) :
    lookupDirect (eraseDirect cbs a b) a b = none := by
  rw [eraseDirect]
  cases h : aget cbs a with
  | none => rw [lookupDirect, h]
  | some inner => simp only [lookupDirect, aget_aset_self, aget_aerase_self]

theorem dispatchCore_noDirect (cbs : Callbacks) (eps : Endpoints) (u : User)
    (msg : Message) (now : Nat)
    (h : lookupDirect cbs u.id msg.«to».id = none) :
    dispatchCore cbs eps u msg now =
      { callbacks := cbs, msg := msg,
        invoked := patternHandlers eps u msg } := by
  simp only [dispatchCore, h]

theorem dispatchCore_hit (cbs : Callbacks) (eps : Endpoints) (u : User)
    (msg : Message) (now : Nat) (e : CEntry)
    (h : lookupDirect cbs u.id msg.«to».id = some e)
    (ht : now < e.time + e.timeout) :
    dispatchCore cbs eps u msg now =
      { callbacks := eraseDirect cbs u.id msg.«to».id
        msg := { msg with conversation_id := some e.id }
        invoked := [(e.func, MatchArg.callback)] } := by
  simp only [dispatchCore, h, if_pos ht]

theorem dispatchCore_expired (cbs : Callbacks) (eps : Endpoints) (u : User)
    (msg : Message) (now : Nat) (e : CEntry)
    (h : lookupDirect cbs u.id msg.«to».id = some e)
    (ht : ¬ now < e.time + e.timeout) :
    dispatchCore cbs eps u msg now =
      { callbacks := cbs, msg := msg,
        invoked := patternHandlers eps u msg } := by
  simp only [dispatchCore, h, if_neg ht]

theorem keep_of_mem_selectCmds {eps : Endpoints} {u : User} {msg : Message}
    {c : Command} {n : Nat} (h : (c, n) ∈ selectCmds eps u msg) :
    keep u msg c = true := by
  induction eps with
  | nil => simp [selectCmds] at h
  | cons hd rest ih =>
    rw [selectCmds] at h
    rcases List.mem_append.1 h with h1 | h2
    · cases hs : hd.1.search msg.text with
      | none => rw [hs] at h1; simp at h1
      | some m =>
        rw [hs] at h1
        obtain ⟨c', hc', heq⟩ := List.mem_map.1 h1
        obtain ⟨rfl, rfl⟩ : c' = c ∧ m = n := by
          exact ⟨congrArg Prod.fst heq, congrArg Prod.snd heq⟩
        exact (List.mem_filter.1 hc').2
    · exact ih h2

theorem keep_false_of_mention {u : User} {msg : Message} {c : Command}
    (hm : c.mention = true) (hmm : msg.mention = false) :
    keep u msg c = false := by
  simp [keep, hm, hmm]

theorem keep_false_of_admin {u : User} {msg : Message} {c : Command}
    (ha : c.admin = true) (hua : u.admin = false) :
    keep u msg c = false := by
  simp [keep, ha, hua]

/-! ## Claim theorems -/

/-- C1: for every registered direct continuation keyed by sender A and
destination B, delivering a message from A to B before the TTL elapses
invokes exactly the stored continuation callback as the sole handler (no
pattern matching is performed), sets the conversation id of the message to
the stored id of the continuation, and deletes the entry; a second message
from A to B delivered afterward goes through normal pattern matching (the
consumed entry is not reused). -/
theorem direct_continuation_consume (cbs : Callbacks) (eps : Endpoints)
    (u : User) (msg : Message) (now : Nat) (e : CEntry)
    (hl : lookupDirect cbs u.id msg.«to».id = some e)
    (ht : now < e.time + e.timeout) :
    (dispatchCore cbs eps u msg now).invoked = [(e.func, MatchArg.callback)] ∧
    (dispatchCore cbs eps u msg now).msg.conversation_id = some e.id ∧
    lookupDirect (dispatchCore cbs eps u msg now).callbacks u.id
      msg.«to».id = none ∧
    (∀ (eps2 : Endpoints) (u2 : User) (msg2 : Message) (now2 : Nat),
       u2.id = u.id → msg2.«to».id = msg.«to».id →
       dispatchCore (dispatchCore cbs eps u msg now).callbacks eps2 u2 msg2
           now2 =
         { callbacks := (dispatchCore cbs eps u msg now).callbacks
           msg := msg2
           invoked := patternHandlers eps2 u2 msg2 }) := by
  rw [dispatchCore_hit cbs eps u msg now e hl ht]
  refine ⟨rfl, rfl, lookupDirect_eraseDirect_self _ _ _, ?_⟩
  intro eps2 u2 msg2 now2 hu hm
  apply dispatchCore_noDirect
  rw [hu, hm]
  exact lookupDirect_eraseDirect_self _ _ _

/-- Witness for C1 at a concrete state: a continuation from sender A to
destination B registered at time 2 with TTL 300, delivered at time 5, with a
pattern endpoint that would also match; afterwards the same pattern endpoint
is consulted for the second message. -/
theorem direct_continuation_consume_witness :
    (dispatchCore [("A", [("B", ⟨7, 2, 300, "c0"⟩)])]
        [(⟨"x", 0, fun t => if t = "x" then some 0 else none⟩,
          [⟨5, false, false, none⟩])]
        ⟨"A", []⟩
        { frm := some ⟨"A", []⟩, «to» := ⟨"B"⟩, text := "x", subtype := "",
          mention := false, thread := none, timestamp := "9.1",
          conversation_id := none }
        5).invoked = [(7, MatchArg.callback)] ∧
    (dispatchCore [("A", [("B", ⟨7, 2, 300, "c0"⟩)])]
        [(⟨"x", 0, fun t => if t = "x" then some 0 else none⟩,
          [⟨5, false, false, none⟩])]
        ⟨"A", []⟩
        { frm := some ⟨"A", []⟩, «to» := ⟨"B"⟩, text := "x", subtype := "",
          mention := false, thread := none, timestamp := "9.1",
          conversation_id := none }
        5).msg.conversation_id = some "c0" ∧
    lookupDirect
      (dispatchCore [("A", [("B", ⟨7, 2, 300, "c0"⟩)])]
        [(⟨"x", 0, fun t => if t = "x" then some 0 else none⟩,
          [⟨5, false, false, none⟩])]
        ⟨"A", []⟩
        { frm := some ⟨"A", []⟩, «to» := ⟨"B"⟩, text := "x", subtype := "",
          mention := false, thread := none, timestamp := "9.1",
          conversation_id := none }
        5).callbacks "A" "B" = none ∧
    dispatchCore
      (dispatchCore [("A", [("B", ⟨7, 2, 300, "c0"⟩)])]
        [(⟨"x", 0, fun t => if t = "x" then some 0 else none⟩,
          [⟨5, false, false, none⟩])]
        ⟨"A", []⟩
        { frm := some ⟨"A", []⟩, «to» := ⟨"B"⟩, text := "x", subtype := "",
          mention := false, thread := none, timestamp := "9.1",
          conversation_id := none }
        5).callbacks
      [(⟨"x", 0, fun t => if t = "x" then some 0 else none⟩,
        [⟨5, false, false, none⟩])]
      ⟨"A", []⟩
      { frm := some ⟨"A", []⟩, «to» := ⟨"B"⟩, text := "x", subtype := "",
        mention := false, thread := none, timestamp := "9.2",
        conversation_id := none }
      6 =
      { callbacks :=
          (dispatchCore [("A", [("B", ⟨7, 2, 300, "c0"⟩)])]
            [(⟨"x", 0, fun t => if t = "x" then some 0 else none⟩,
              [⟨5, false, false, none⟩])]
            ⟨"A", []⟩
            { frm := some ⟨"A", []⟩, «to» := ⟨"B"⟩, text := "x",
              subtype := "", mention := false, thread := none,
              timestamp := "9.1", conversation_id := none }
            5).callbacks
        msg :=
          { frm := some ⟨"A", []⟩, «to» := ⟨"B"⟩, text := "x", subtype := "",
            mention := false, thread := none, timestamp := "9.2",
            conversation_id := none }
        invoked := patternHandlers
          [(⟨"x", 0, fun t => if t = "x" then some 0 else none⟩,
            [⟨5, false, false, none⟩])]
          ⟨"A", []⟩
          { frm := some ⟨"A", []⟩, «to» := ⟨"B"⟩, text := "x", subtype := "",
            mention := false, thread := none, timestamp := "9.2",
            conversation_id := none } } := by
  have h := direct_continuation_consume [("A", [("B", ⟨7, 2, 300, "c0"⟩)])]
    [(⟨"x", 0, fun t => if t = "x" then some 0 else none⟩,
      [⟨5, false, false, none⟩])]
    ⟨"A", []⟩
    { frm := some ⟨"A", []⟩, «to» := ⟨"B"⟩, text := "x", subtype := "",
      mention := false, thread := none, timestamp := "9.1",
      conversation_id := none }
    5 ⟨7, 2, 300, "c0"⟩ rfl (by decide)
  exact ⟨h.1, h.2.1, h.2.2.1,
    h.2.2.2 _ _
      { frm := some ⟨"A", []⟩, «to» := ⟨"B"⟩, text := "x", subtype := "",
        mention := false, thread := none, timestamp := "9.2",
        conversation_id := none } 6 rfl rfl⟩

/-- The statement of claim C8 as written in the spec: the direct lookup
returns and consumes the entry exactly when it is present and
`now <= registeredAt + ttl`; when the lookup fails because the entry is
expired, the message is routed as if no continuation existed and the expired
entry remains in the map. -/
def claimC8 : Prop :=
  ∀ (cbs : Callbacks) (eps : Endpoints) (u : User) (msg : Message)
    (now : Nat) (e : CEntry),
    lookupDirect cbs u.id msg.«to».id = some e →
    ((now ≤ e.time + e.timeout →
        (dispatchCore cbs eps u msg now).invoked =
          [(e.func, MatchArg.callback)] ∧
        lookupDirect (dispatchCore cbs eps u msg now).callbacks u.id
          msg.«to».id = none) ∧
     (e.time + e.timeout < now →
        (dispatchCore cbs eps u msg now).invoked =
          patternHandlers eps u msg ∧
        (dispatchCore cbs eps u msg now).callbacks = cbs))

/-- C8 counterexample: at the exact boundary `now = registeredAt + ttl`
(entry registered at 0 with TTL 300, message at time 300) the code treats the
entry as expired, because `_dispatch` tests `time.time() < time + timeout`
strictly, while the claim requires consumption at `now <= registeredAt +
ttl`. -/
theorem ttl_boundary_cex : ¬ claimC8 := by
  intro h
  have h1 := (h [("A", [("B", ⟨7, 0, 300, "c"⟩)])] [] ⟨"A", []⟩
      { frm := some ⟨"A", []⟩, «to» := ⟨"B"⟩, text := "", subtype := "",
        mention := false, thread := none, timestamp := "1",
        conversation_id := none }
      300 ⟨7, 0, 300, "c"⟩ rfl).1 (by decide)
  exact absurd h1.1 (by decide)

/-- C8 amended: the lookup consumes the entry exactly when it is present and
`now < registeredAt + ttl` (strict); when the entry is expired
(`registeredAt + ttl <= now`) the message is routed through pattern matching
as if no continuation existed and the expired entry remains in the map, the
failed lookup does not delete it. -/
theorem ttl_strict_and_frame (cbs : Callbacks) (eps : Endpoints) (u : User)
    (msg : Message) (now : Nat) (e : CEntry)
    (hl : lookupDirect cbs u.id msg.«to».id = some e) :
    (now < e.time + e.timeout →
       (dispatchCore cbs eps u msg now).invoked =
         [(e.func, MatchArg.callback)] ∧
       lookupDirect (dispatchCore cbs eps u msg now).callbacks u.id
         msg.«to».id = none) ∧
    (e.time + e.timeout ≤ now →
       (dispatchCore cbs eps u msg now).invoked =
         patternHandlers eps u msg ∧
       (dispatchCore cbs eps u msg now).callbacks = cbs ∧
       lookupDirect (dispatchCore cbs eps u msg now).callbacks u.id
         msg.«to».id = some e) := by
  constructor
  · intro ht
    rw [dispatchCore_hit cbs eps u msg now e hl ht]
    exact ⟨rfl, lookupDirect_eraseDirect_self _ _ _⟩
  · intro ht
    rw [dispatchCore_expired cbs eps u msg now e hl (by omega)]
    exact ⟨rfl, rfl, hl⟩

/-- Witness for C8 amended: entry registered at 0 with TTL 300; at time 299
it is consumed and removed, and in a state holding the same entry a delivery
at time 300 leaves the entry in place and runs pattern matching. -/
theorem ttl_strict_and_frame_witness :
    ((dispatchCore [("A", [("B", ⟨7, 0, 300, "c"⟩)])] [] ⟨"A", []⟩
        { frm := some ⟨"A", []⟩, «to» := ⟨"B"⟩, text := "", subtype := "",
          mention := false, thread := none, timestamp := "1",
          conversation_id := none } 299).invoked =
      [(7, MatchArg.callback)] ∧
     lookupDirect
       (dispatchCore [("A", [("B", ⟨7, 0, 300, "c"⟩)])] [] ⟨"A", []⟩
         { frm := some ⟨"A", []⟩, «to» := ⟨"B"⟩, text := "", subtype := "",
           mention := false, thread := none, timestamp := "1",
           conversation_id := none } 299).callbacks "A" "B" = none) ∧
    ((dispatchCore [("A", [("B", ⟨7, 0, 300, "c"⟩)])] [] ⟨"A", []⟩
        { frm := some ⟨"A", []⟩, «to» := ⟨"B"⟩, text := "", subtype := "",
          mention := false, thread := none, timestamp := "1",
          conversation_id := none } 300).invoked =
      patternHandlers [] ⟨"A", []⟩
        { frm := some ⟨"A", []⟩, «to» := ⟨"B"⟩, text := "", subtype := "",
          mention := false, thread := none, timestamp := "1",
          conversation_id := none } ∧
     (dispatchCore [("A", [("B", ⟨7, 0, 300, "c"⟩)])] [] ⟨"A", []⟩
        { frm := some ⟨"A", []⟩, «to» := ⟨"B"⟩, text := "", subtype := "",
          mention := false, thread := none, timestamp := "1",
          conversation_id := none } 300).callbacks =
       [("A", [("B", ⟨7, 0, 300, "c"⟩)])] ∧
     lookupDirect
       (dispatchCore [("A", [("B", ⟨7, 0, 300, "c"⟩)])] [] ⟨"A", []⟩
         { frm := some ⟨"A", []⟩, «to» := ⟨"B"⟩, text := "", subtype := "",
           mention := false, thread := none, timestamp := "1",
           conversation_id := none } 300).callbacks "A" "B" =
       some ⟨7, 0, 300, "c"⟩) :=
  ⟨(ttl_strict_and_frame [("A", [("B", ⟨7, 0, 300, "c"⟩)])] [] ⟨"A", []⟩
      { frm := some ⟨"A", []⟩, «to» := ⟨"B"⟩, text := "", subtype := "",
        mention := false, thread := none, timestamp := "1",
        conversation_id := none } 299 ⟨7, 0, 300, "c"⟩ rfl).1 (by decide),
   (ttl_strict_and_frame [("A", [("B", ⟨7, 0, 300, "c"⟩)])] [] ⟨"A", []⟩
      { frm := some ⟨"A", []⟩, «to» := ⟨"B"⟩, text := "", subtype := "",
        mention := false, thread := none, timestamp := "1",
        conversation_id := none } 300 ⟨7, 0, 300, "c"⟩ rfl).2 (by decide)⟩

/-- The statement of claim C4 as written in the spec: on the
pattern-matching path, a handler carrying an explicit channel scope is
selected only when the destination of the message is in that scope. -/
def claimC4 : Prop :=
  ∀ (eps : Endpoints) (u : User) (msg : Message) (c : Command) (n : Nat)
    (scope : List String),
    c.channels = some scope → msg.«to».id ∉ scope →
    (c, n) ∉ selectCmds eps u msg

/-- C4 counterexample: a handler whose channel scope is the explicit set
{"C2"} is nonetheless selected for a message to "C1" whose text matches its
pattern, because `_dispatch` filters only on the mention and admin flags and
never consults a channel scope. -/
theorem channel_scope_cex : ¬ claimC4 := by
  intro h
  exact h [(⟨"hello", 0, fun t => if t = "hello" then some 0 else none⟩,
            [⟨7, false, false, some ["C2"]⟩])]
    ⟨"U1", []⟩
    { frm := some ⟨"U1", []⟩, «to» := ⟨"C1"⟩, text := "hello", subtype := "",
      mention := false, thread := none, timestamp := "1",
      conversation_id := none }
    ⟨7, false, false, some ["C2"]⟩ 0 ["C2"] rfl (by decide) (by decide)

/-- C4 amended: the channel-scope value of a handler record is never
consulted on the pattern-matching path: the invoked handlers are unchanged
under any modification of the channel scopes, selection depends only on the
pattern, the mention flag and the admin flag. -/
theorem channel_scope_ignored (eps : Endpoints) (u : User) (msg : Message)
    (g : Command → Option (List String)) :
    patternHandlers
      (eps.map (fun pc => (pc.1, pc.2.map
        (fun c => { c with channels := g c })))) u msg
      = patternHandlers eps u msg := by
  have hsel : ∀ eps' : Endpoints,
      selectCmds (eps'.map (fun pc => (pc.1, pc.2.map
        (fun c => { c with channels := g c })))) u msg
      = (selectCmds eps' u msg).map
          (fun cn => ({ cn.1 with channels := g cn.1 }, cn.2)) := by
    intro eps'
    induction eps' with
    | nil => rfl
    | cons hd rest ih =>
      rw [List.map_cons, selectCmds, selectCmds, ih, List.map_append]
      congr 1
      cases hs : hd.1.search msg.text with
      | none => simp
      | some m =>
        rw [List.filter_map]
        have hco : (keep u msg ∘
            fun c : Command => { c with channels := g c }) = keep u msg := by
          funext c; rfl
        rw [hco]
        simp only [List.map_map]
        rfl
  rw [patternHandlers, patternHandlers, hsel, List.map_map]
  rfl

/-- The statement of claim C5 as written in the spec: a message belonging to
a tracked thread with a registered thread continuation (sender key first,
then the "all" sentinel) runs exactly the matched callback as the sole
handler, with no text matching performed. The thread store itself follows
the spec wording, see lookupThreadSpec. -/
def claimC5 : Prop :=
  ∀ (tm : List (String × List (String × Nat))) (cbs : Callbacks)
    (eps : Endpoints) (u : User) (msg : Message) (now : Nat)
    (tid : String) (f : Nat),
    msg.thread = some tid → lookupThreadSpec tm tid u.id = some f →
    (dispatchCore cbs eps u msg now).invoked = [(f, MatchArg.callback)]

/-- C5 counterexample: with a thread continuation registered for thread "T1"
under the "all" sentinel, a message in thread "T1" is still routed through
pattern matching and invokes the pattern handler, not the thread callback:
`_dispatch` contains no thread-continuation store or lookup at all. -/
theorem thread_continuation_cex : ¬ claimC5 := by
  intro h
  have h1 := h [("T1", [("all", 9)])] []
    [(⟨"hi", 0, fun t => if t = "hi" then some 0 else none⟩,
      [⟨7, false, false, none⟩])]
    ⟨"U1", []⟩
    { frm := some ⟨"U1", []⟩, «to» := ⟨"C1"⟩, text := "hi", subtype := "",
      mention := false, thread := some "T1", timestamp := "1",
      conversation_id := none }
    0 "T1" 9 rfl (by decide)
  exact absurd h1 (by decide)

/-- C5 amended: no thread-continuation mechanism exists in the dispatcher:
routing never reads the thread of a message, so a message in a tracked
thread is routed exactly like any other message, by the direct-continuation
lookup on (sender, destination) and otherwise by pattern matching. -/
theorem routing_ignores_thread (cbs : Callbacks) (eps : Endpoints) (u : User)
    (msg : Message) (now : Nat) (t : Option String) :
    (dispatchCore cbs eps u { msg with thread := t } now).callbacks
        = (dispatchCore cbs eps u msg now).callbacks ∧
    (dispatchCore cbs eps u { msg with thread := t } now).invoked
        = (dispatchCore cbs eps u msg now).invoked ∧
    (dispatchCore cbs eps u { msg with thread := t } now).msg.conversation_id
        = (dispatchCore cbs eps u msg now).msg.conversation_id := by
  have hsel : selectCmds eps u { msg with thread := t } =
      selectCmds eps u msg := by
    induction eps with
    | nil => rfl
    | cons hd rest ih =>
      rw [selectCmds, selectCmds, ih]
      rfl
  have hpat : patternHandlers eps u { msg with thread := t } =
      patternHandlers eps u msg := by
    rw [patternHandlers, patternHandlers, hsel]
  cases hl : lookupDirect cbs u.id msg.«to».id with
  | none =>
    rw [dispatchCore_noDirect cbs eps u msg now hl,
      dispatchCore_noDirect cbs eps u { msg with thread := t } now hl, hpat]
    exact ⟨rfl, rfl, rfl⟩
  | some e =>
    by_cases ht : now < e.time + e.timeout
    · rw [dispatchCore_hit cbs eps u msg now e hl ht,
        dispatchCore_hit cbs eps u { msg with thread := t } now e hl ht]
      exact ⟨rfl, rfl, rfl⟩
    · rw [dispatchCore_expired cbs eps u msg now e hl ht,
        dispatchCore_expired cbs eps u { msg with thread := t } now e hl ht,
        hpat]
      exact ⟨rfl, rfl, rfl⟩

/-- C7: on the pattern-matching path a handler whose mention flag is set is
selected only when the mention flag of the message is true; a handler whose
admin flag is set is never selected for a message whose sender has a false
admin flag, even when the pattern matches; and a sender whose raw record
lacks an is_admin field counts as non-admin. -/
theorem mention_admin_gating :
    (∀ (eps : Endpoints) (u : User) (msg : Message) (c : Command) (n : Nat),
       c.mention = true → msg.mention = false →
       (c, n) ∉ selectCmds eps u msg) ∧
    (∀ (eps : Endpoints) (u : User) (msg : Message) (c : Command) (n : Nat),
       c.admin = true → u.admin = false →
       (c, n) ∉ selectCmds eps u msg) ∧
    (∀ (i : String) (raw : List (String × Bool)),
       raw.lookup "is_admin" = none → User.admin ⟨i, raw⟩ = false) := by
  refine ⟨?_, ?_, ?_⟩
  · intro eps u msg c n hm hmm hmem
    have hkeep := keep_of_mem_selectCmds hmem
    rw [keep_false_of_mention hm hmm] at hkeep
    exact Bool.noConfusion hkeep
  · intro eps u msg c n ha hua hmem
    have hkeep := keep_of_mem_selectCmds hmem
    rw [keep_false_of_admin ha hua] at hkeep
    exact Bool.noConfusion hkeep
  · intro i raw h
    simp [User.admin, h]

/-- Witness for C7: a mention-gated handler is not selected for an
unmentioned message, an admin-gated handler is not selected for a non-admin
sender (whose raw record lacks is_admin), even though both patterns match
the text. -/
theorem mention_admin_gating_witness :
    (⟨5, true, false, none⟩, 0) ∉
      selectCmds [(⟨"x", 0, fun t => if t = "x" then some 0 else none⟩,
        [⟨5, true, false, none⟩])] ⟨"U", []⟩
        { frm := some ⟨"U", []⟩, «to» := ⟨"C"⟩, text := "x", subtype := "",
          mention := false, thread := none, timestamp := "1",
          conversation_id := none } ∧
    (⟨6, false, true, none⟩, 0) ∉
      selectCmds [(⟨"x", 0, fun t => if t = "x" then some 0 else none⟩,
        [⟨6, false, true, none⟩])] ⟨"U", []⟩
        { frm := some ⟨"U", []⟩, «to» := ⟨"C"⟩, text := "x", subtype := "",
          mention := true, thread := none, timestamp := "1",
          conversation_id := none } ∧
    User.admin ⟨"U", []⟩ = false :=
  ⟨mention_admin_gating.1 _ _ _ _ _ rfl rfl,
   mention_admin_gating.2.1 _ _ _ _ _ rfl rfl,
   mention_admin_gating.2.2 "U" [] rfl⟩

/-- The statement of claim C2 as written in the spec: a completed handler
returning a mapping with a callback reference registers a direct
continuation whose destination defaults to the sender of the original
message and whose origin defaults to the destination of the original
message (so the entry is stored under the origin key, then the destination
key), with timeout defaulting to 300 and the conversation id taken from the
original message. -/
def claimC2 : Prop :=
  ∀ (cbs : Callbacks) (now : Nat) (u : User) (msg : Message) (r : HResult)
    (f : Nat),
    r.func = some f → r.«to» = none → r.frm = none →
    handler_done_callback cbs now u msg (some r) =
      setDirect cbs msg.«to».id u.id
        { func := f, time := now, timeout := r.timeout.getD 300,
          id := pyOrStr msg.conversation_id msg.timestamp }

/-- C2 counterexample: for a handler completion on a message from sender U1
to destination C1 whose result carries only a callback reference, the code
stores the continuation under key (U1, C1), because `to` defaults to
`msg.to` (the destination of the original message) and `frm` defaults to
`msg.frm` (its sender); the claim has the two defaults swapped and predicts
key (C1, U1). -/
theorem continuation_defaults_cex : ¬ claimC2 := by
  intro h
  have h1 := h [] 100 ⟨"U1", []⟩
    { frm := some ⟨"U1", []⟩, «to» := ⟨"C1"⟩, text := "", subtype := "",
      mention := false, thread := none, timestamp := "5.0",
      conversation_id := none }
    ⟨some 9, none, none, none⟩ 9 rfl rfl rfl
  exact absurd h1 (by decide)

/-- C2 amended: a completed handler returning a mapping with a callback
reference registers a direct continuation whose destination defaults to the
destination of the original message and whose origin defaults to its
sender, so the next message from the same sender to the same destination
finds it; the timeout defaults to 300 seconds and the conversation id is
the conversation id of the original message or else its timestamp; a result
without a callback reference registers nothing. -/
theorem continuation_registration (cbs : Callbacks) (now : Nat) (u : User)
    (msg : Message) :
    handler_done_callback cbs now u msg none = cbs ∧
    (∀ r : HResult, r.func = none →
       handler_done_callback cbs now u msg (some r) = cbs) ∧
    (∀ (r : HResult) (f : Nat),
       r.func = some f → r.«to» = none → r.frm = none →
       lookupDirect (handler_done_callback cbs now u msg (some r)) u.id
           msg.«to».id =
         some { func := f, time := now, timeout := r.timeout.getD 300,
                id := pyOrStr msg.conversation_id msg.timestamp }) := by
  refine ⟨rfl, ?_, ?_⟩
  · intro r hr
    simp only [handler_done_callback, hr]
  · intro r f hf hto hfrm
    simp only [handler_done_callback, hf, hto, hfrm, Option.getD_none]
    exact lookupDirect_setDirect_self _ _ _ _

/-- Witness for C2 amended on a message from sender U1 to destination C1 at
time 100: a falsy result and a result without a callback reference register
nothing; a result carrying callback 9 and no explicit fields is found by a
direct lookup keyed (U1, C1) with timeout 300 and the message timestamp as
conversation id. -/
theorem continuation_registration_witness :
    handler_done_callback [] 100 ⟨"U1", []⟩
      { frm := some ⟨"U1", []⟩, «to» := ⟨"C1"⟩, text := "", subtype := "",
        mention := false, thread := none, timestamp := "5.0",
        conversation_id := none } none = [] ∧
    handler_done_callback [] 100 ⟨"U1", []⟩
      { frm := some ⟨"U1", []⟩, «to» := ⟨"C1"⟩, text := "", subtype := "",
        mention := false, thread := none, timestamp := "5.0",
        conversation_id := none } (some ⟨none, none, none, some 60⟩) = [] ∧
    lookupDirect
      (handler_done_callback [] 100 ⟨"U1", []⟩
        { frm := some ⟨"U1", []⟩, «to» := ⟨"C1"⟩, text := "", subtype := "",
          mention := false, thread := none, timestamp := "5.0",
          conversation_id := none } (some ⟨some 9, none, none, none⟩))
      "U1" "C1" = some ⟨9, 100, 300, "5.0"⟩ :=
  ⟨(continuation_registration [] 100 ⟨"U1", []⟩
      { frm := some ⟨"U1", []⟩, «to» := ⟨"C1"⟩, text := "", subtype := "",
        mention := false, thread := none, timestamp := "5.0",
        conversation_id := none }).1,
   (continuation_registration [] 100 ⟨"U1", []⟩
      { frm := some ⟨"U1", []⟩, «to» := ⟨"C1"⟩, text := "", subtype := "",
        mention := false, thread := none, timestamp := "5.0",
        conversation_id := none }).2.1 ⟨none, none, none, some 60⟩ rfl,
   (continuation_registration [] 100 ⟨"U1", []⟩
      { frm := some ⟨"U1", []⟩, «to» := ⟨"C1"⟩, text := "", subtype := "",
        mention := false, thread := none, timestamp := "5.0",
        conversation_id := none }).2.2 ⟨some 9, none, none, none⟩ 9
     rfl rfl rfl⟩

/-- The statement of claim C3 as written in the spec: during registry
build, a descriptor whose pattern fails to compile is logged and skipped,
the build is not aborted, and every descriptor whose pattern does compile is
still registered. -/
def claimC3 : Prop :=
  ∀ (compile : String → Nat → Option (String → Option Nat))
    (bot : Option String) (descs : List Descriptor) (d : Descriptor),
    d ∈ descs →
    (compile (formatBot bot d.mtch) (d.flags.getD 0)).isSome = true →
    d.func ∈ registeredFuncs (registerLoop compile bot descs []).1 ∧
    (registerLoop compile bot descs []).2 = false

/-- C3 counterexample: with a descriptor list holding one uncompilable
pattern followed by a compilable one, the build aborts at the bad
descriptor (the exception propagates) and the later good descriptor is
never registered: `_register` has no exception handling around
`re.compile`. -/
theorem register_abort_cex : ¬ claimC3 := by
  intro h
  have h1 := h
    (fun s _ => if s = "BAD" then none
      else some (fun t => if t = s then some 0 else none))
    none
    [⟨"BAD", none, 2, false, false, none⟩, ⟨"ok", none, 3, false, false, none⟩]
    ⟨"ok", none, 3, false, false, none⟩
    (by decide) (by decide)
  exact absurd h1.2 (by decide)

/-- C3 amended: a descriptor whose pattern fails to compile aborts the
registration loop: the descriptors before it are registered, it and every
later descriptor are not, and the compilation error propagates out of the
build. -/
theorem bad_pattern_aborts
    (compile : String → Nat → Option (String → Option Nat))
    (bot : Option String) (pre : List Descriptor) (d : Descriptor)
    (post : List Descriptor) (acc : Endpoints)
    (hpre : ∀ d' ∈ pre,
      (compile (formatBot bot d'.mtch) (d'.flags.getD 0)).isSome = true)
    (hd : compile (formatBot bot d.mtch) (d.flags.getD 0) = none) :
    registerLoop compile bot (pre ++ d :: post) acc =
      ((registerLoop compile bot pre acc).1, true) := by
  induction pre generalizing acc with
  | nil =>
    rw [List.nil_append]
    simp only [registerLoop, hd]
  | cons p ps ih =>
    obtain ⟨srch, hp⟩ := Option.isSome_iff_exists.mp
      (hpre p (List.mem_cons_self p ps))
    rw [List.cons_append]
    simp only [registerLoop, hp]
    exact ih
      (endpointsAdd acc ⟨formatBot bot p.mtch, p.flags.getD 0, srch⟩
        p.toCommand)
      (fun d' hd' => hpre d' (List.mem_cons_of_mem p hd'))

/-- Witness for C3 amended: the good descriptor before the bad one is
registered, the good descriptor after it is not, and the error propagates
(the abort flag of the loop is set). -/
theorem bad_pattern_aborts_witness :
    registerLoop
      (fun s _ => if s = "BAD" then none
        else some (fun t => if t = s then some 0 else none))
      none
      ([⟨"ok", none, 1, false, false, none⟩] ++
        ⟨"BAD", none, 2, false, false, none⟩ ::
        [⟨"ok2", none, 3, false, false, none⟩]) [] =
      ((registerLoop
        (fun s _ => if s = "BAD" then none
          else some (fun t => if t = s then some 0 else none))
        none [⟨"ok", none, 1, false, false, none⟩] []).1, true) :=
  bad_pattern_aborts
    (fun s _ => if s = "BAD" then none
      else some (fun t => if t = s then some 0 else none))
    none [⟨"ok", none, 1, false, false, none⟩]
    ⟨"BAD", none, 2, false, false, none⟩
    [⟨"ok2", none, 3, false, false, none⟩] []
    (by decide) rfl

/-- Helper: when the save policy covers the subtype and the timestamp key is
already stored, `incoming` returns immediately on the duplicate-key error,
with no handler invocations and both the continuation map and the store
untouched. -/
theorem incoming_dup (cfg : IncomingCfg) (eps : Endpoints) (cbs : Callbacks)
    (db : List String) (now : Nat) (msg : Message) (u : User)
    (hf : msg.frm = some u)
    (h1 : u.id ≠ cfg.botId) (h2 : u.id ≠ cfg.botBotId)
    (h3 : u.id ≠ "B00000000")
    (hs : shouldSave cfg.save msg.subtype = true)
    (hdup : db.contains msg.timestamp = true) :
    incoming cfg eps cbs db now msg =
      { callbacks := cbs, db := db, invoked := [] } := by
  have hdup' : msg.timestamp ∈ db := by simpa using hdup
  simp only [incoming, hf]
  simp [h1, h2, h3, hs, hdup']

/-- Helper: when the save policy covers the subtype and the timestamp is
fresh, `incoming` persists the timestamp and then either suppresses the
subtype or dispatches. -/
theorem incoming_fresh (cfg : IncomingCfg) (eps : Endpoints)
    (cbs : Callbacks) (db : List String) (now : Nat) (msg : Message)
    (u : User) (hf : msg.frm = some u)
    (h1 : u.id ≠ cfg.botId) (h2 : u.id ≠ cfg.botBotId)
    (h3 : u.id ≠ "B00000000")
    (hs : shouldSave cfg.save msg.subtype = true)
    (hdup : db.contains msg.timestamp = false) :
    incoming cfg eps cbs db now msg =
      (if ignoring.contains msg.subtype then
        { callbacks := cbs, db := db ++ [msg.timestamp], invoked := [] }
      else
        { callbacks := (dispatchCore cbs eps u msg now).callbacks
          db := db ++ [msg.timestamp]
          invoked := (dispatchCore cbs eps u msg now).invoked }) := by
  have hdup' : msg.timestamp ∉ db := by simpa using hdup
  simp only [incoming, hf]
  simp [h1, h2, h3, hs, hdup']

/-- C6: if persisting an incoming message reports a duplicate-key conflict,
processing stops entirely: zero handlers are invoked and no continuation
state is touched, so a second delivery of an already-persisted message
(same timestamp key) is a no-op. -/
theorem idempotent_ingestion :
    (∀ (cfg : IncomingCfg) (eps : Endpoints) (cbs : Callbacks)
       (db : List String) (now : Nat) (msg : Message) (u : User),
       msg.frm = some u →
       u.id ≠ cfg.botId → u.id ≠ cfg.botBotId → u.id ≠ "B00000000" →
       shouldSave cfg.save msg.subtype = true →
       db.contains msg.timestamp = true →
       incoming cfg eps cbs db now msg =
         { callbacks := cbs, db := db, invoked := [] }) ∧
    (∀ (cfg : IncomingCfg) (eps : Endpoints) (cbs : Callbacks)
       (db : List String) (now now2 : Nat) (msg : Message) (u : User),
       msg.frm = some u →
       u.id ≠ cfg.botId → u.id ≠ cfg.botBotId → u.id ≠ "B00000000" →
       shouldSave cfg.save msg.subtype = true →
       db.contains msg.timestamp = false →
       incoming cfg eps (incoming cfg eps cbs db now msg).callbacks
           (incoming cfg eps cbs db now msg).db now2 msg =
         { callbacks := (incoming cfg eps cbs db now msg).callbacks
           db := (incoming cfg eps cbs db now msg).db
           invoked := [] }) := by
  constructor
  · exact incoming_dup
  · intro cfg eps cbs db now now2 msg u hf h1 h2 h3 hs hdup
    apply incoming_dup cfg eps _ _ now2 msg u hf h1 h2 h3 hs
    rw [incoming_fresh cfg eps cbs db now msg u hf h1 h2 h3 hs hdup]
    by_cases hig : msg.subtype ∈ ignoring
    · simp [hig]
    · simp [hig]

/-- Witness for C6: a message with timestamp key already stored is a
complete no-op, and after a fresh delivery persists the key a second
delivery of the same message invokes nothing and changes nothing. -/
theorem idempotent_ingestion_witness :
    incoming ⟨"BOT", "BB", SavePolicy.flag true⟩ [] [] ["7.0"] 5
      { frm := some ⟨"U1", []⟩, «to» := ⟨"C1"⟩, text := "x", subtype := "",
        mention := false, thread := none, timestamp := "7.0",
        conversation_id := none } =
      { callbacks := [], db := ["7.0"], invoked := [] } ∧
    incoming ⟨"BOT", "BB", SavePolicy.flag true⟩ []
      (incoming ⟨"BOT", "BB", SavePolicy.flag true⟩ [] [] [] 5
        { frm := some ⟨"U1", []⟩, «to» := ⟨"C1"⟩, text := "x", subtype := "",
          mention := false, thread := none, timestamp := "7.0",
          conversation_id := none }).callbacks
      (incoming ⟨"BOT", "BB", SavePolicy.flag true⟩ [] [] [] 5
        { frm := some ⟨"U1", []⟩, «to» := ⟨"C1"⟩, text := "x", subtype := "",
          mention := false, thread := none, timestamp := "7.0",
          conversation_id := none }).db 6
      { frm := some ⟨"U1", []⟩, «to» := ⟨"C1"⟩, text := "x", subtype := "",
        mention := false, thread := none, timestamp := "7.0",
        conversation_id := none } =
      { callbacks :=
          (incoming ⟨"BOT", "BB", SavePolicy.flag true⟩ [] [] [] 5
            { frm := some ⟨"U1", []⟩, «to» := ⟨"C1"⟩, text := "x",
              subtype := "", mention := false, thread := none,
              timestamp := "7.0", conversation_id := none }).callbacks
        db :=
          (incoming ⟨"BOT", "BB", SavePolicy.flag true⟩ [] [] [] 5
            { frm := some ⟨"U1", []⟩, «to» := ⟨"C1"⟩, text := "x",
              subtype := "", mention := false, thread := none,
              timestamp := "7.0", conversation_id := none }).db
        invoked := [] } :=
  ⟨idempotent_ingestion.1 ⟨"BOT", "BB", SavePolicy.flag true⟩ [] [] ["7.0"] 5
    { frm := some ⟨"U1", []⟩, «to» := ⟨"C1"⟩, text := "x", subtype := "",
      mention := false, thread := none, timestamp := "7.0",
      conversation_id := none } ⟨"U1", []⟩ rfl (by decide) (by decide)
    (by decide) rfl (by decide),
   idempotent_ingestion.2 ⟨"BOT", "BB", SavePolicy.flag true⟩ [] [] [] 5 6
    { frm := some ⟨"U1", []⟩, «to» := ⟨"C1"⟩, text := "x", subtype := "",
      mention := false, thread := none, timestamp := "7.0",
      conversation_id := none } ⟨"U1", []⟩ rfl (by decide) (by decide)
    (by decide) rfl (by decide)⟩

/-- C9: a message whose subtype is one of the suppressed subtypes (edits,
deletions, channel join and leave, reply fan-out duplicates) is dropped
before routing: zero handler invocations occur and the continuation map is
untouched, no continuation lookup consumes anything. -/
theorem suppressed_subtype_drop (cfg : IncomingCfg) (eps : Endpoints)
    (cbs : Callbacks) (db : List String) (now : Nat) (msg : Message)
    (h : ignoring.contains msg.subtype = true) :
    (incoming cfg eps cbs db now msg).invoked = [] ∧
    (incoming cfg eps cbs db now msg).callbacks = cbs := by
  refine ⟨?_, ?_⟩ <;>
  · unfold incoming
    split
    · rfl
    · split
      · rfl
      · split
        · rfl
        · simp [h]

/-- Witness for C9: a channel_join message is dropped even though a live
direct continuation for its sender and destination exists and its text
matches a registered pattern. -/
theorem suppressed_subtype_drop_witness :
    (incoming ⟨"BOT", "BB", SavePolicy.flag false⟩
      [(⟨"x", 0, fun t => if t = "x" then some 0 else none⟩,
        [⟨5, false, false, none⟩])]
      [("A", [("B", ⟨7, 0, 300, "c"⟩)])] [] 5
      { frm := some ⟨"A", []⟩, «to» := ⟨"B"⟩, text := "x",
        subtype := "channel_join", mention := false, thread := none,
        timestamp := "1", conversation_id := none }).invoked = [] ∧
    (incoming ⟨"BOT", "BB", SavePolicy.flag false⟩
      [(⟨"x", 0, fun t => if t = "x" then some 0 else none⟩,
        [⟨5, false, false, none⟩])]
      [("A", [("B", ⟨7, 0, 300, "c"⟩)])] [] 5
      { frm := some ⟨"A", []⟩, «to» := ⟨"B"⟩, text := "x",
        subtype := "channel_join", mention := false, thread := none,
        timestamp := "1", conversation_id := none }).callbacks =
      [("A", [("B", ⟨7, 0, 300, "c"⟩)])] :=
  suppressed_subtype_drop ⟨"BOT", "BB", SavePolicy.flag false⟩
    [(⟨"x", 0, fun t => if t = "x" then some 0 else none⟩,
      [⟨5, false, false, none⟩])]
    [("A", [("B", ⟨7, 0, 300, "c"⟩)])] [] 5
    { frm := some ⟨"A", []⟩, «to» := ⟨"B"⟩, text := "x",
      subtype := "channel_join", mention := false, thread := none,
      timestamp := "1", conversation_id := none } (by decide)

/-- C10: a message whose resolved sender id equals the hardcoded literal
"B00000000" (a third sentinel identity alongside the bot id and the bot
surrogate id) is dropped by incoming: zero handler invocations and no change
to continuation state or to the store. -/
theorem sentinel_sender_drop (cfg : IncomingCfg) (eps : Endpoints)
    (cbs : Callbacks) (db : List String) (now : Nat) (msg : Message)
    (u : User) (hf : msg.frm = some u) (hid : u.id = "B00000000") :
    incoming cfg eps cbs db now msg =
      { callbacks := cbs, db := db, invoked := [] } := by
  simp only [incoming, hf]
  simp [hid]

/-- Witness for C10: a message from sender B00000000 is dropped unchanged,
even though its text matches a registered pattern and the save policy is
unconditional. -/
theorem sentinel_sender_drop_witness :
    incoming ⟨"BOT", "BB", SavePolicy.flag true⟩
      [(⟨"x", 0, fun t => if t = "x" then some 0 else none⟩,
        [⟨5, false, false, none⟩])] [] [] 5
      { frm := some ⟨"B00000000", []⟩, «to» := ⟨"C1"⟩, text := "x",
        subtype := "", mention := false, thread := none, timestamp := "1",
        conversation_id := none } =
      { callbacks := [], db := [], invoked := [] } :=
  sentinel_sender_drop ⟨"BOT", "BB", SavePolicy.flag true⟩
    [(⟨"x", 0, fun t => if t = "x" then some 0 else none⟩,
      [⟨5, false, false, none⟩])] [] [] 5
    { frm := some ⟨"B00000000", []⟩, «to» := ⟨"C1"⟩, text := "x",
      subtype := "", mention := false, thread := none, timestamp := "1",
      conversation_id := none } ⟨"B00000000", []⟩ rfl rfl

end SirbotSlack
